import Mathlib

/-!
Shallow embedding of the orchestration/resilience core of the
Medical-Transcription-Analysis pipeline
(src/medical_transcription/{ner/medical_ner.py,
report_generation/report_generator.py, knowledge_base/vector_store.py,
api/app.py}), together with proofs about the embedded operations.

Conventions of the embedding:
* Python dicts with optional keys become structures with `Option` fields;
  `dict.get(k, d)` becomes `Option.getD`.
* Python floats (confidence scores) are modelled as rationals `ℚ`.
* Raised exceptions become `none` / error components of returned values;
  a Python method that mutates `self` becomes a function from the state
  to the new state paired with its result.
* External collaborators (model loading, model inference, disk, the
  generative API) are abstracted as environment records whose fields say
  whether each external call succeeds and what it returns.
-/

namespace MedTrans

/-- A raw entity as returned by a NER pipeline: a Python dict in which any
of the keys `score`, `entity`, `entity_group`, `word`, `start`, `end`
may be absent (`medical_ner.py`, `filter_medical_entities` reads them all
with `dict.get`). -/
structure RawEntity where
  score : Option ℚ
  entity : Option String
  entity_group : Option String
  word : Option String
  start : Option Nat
  stop : Option Nat
deriving DecidableEq, Repr

/-- A filtered medical entity as built by
`MedicalNER.filter_medical_entities` (keys `term`, `type`, `score`,
`start`, `end`). -/
structure MedicalEntity where
  term : String
  type : String
  score : ℚ
  start : Nat
  stop : Nat
deriving DecidableEq, Repr

/-- The per-entity body of the loop in
`MedicalNER.filter_medical_entities` (medical_ner.py lines 117-136):
`score = entity.get('score', 0)`,
`entity_type = entity.get('entity', entity.get('entity_group', 'UNKNOWN'))`,
`word = entity.get('word', '')`; keep the entity iff `score >= threshold`
and, after removing the special token character from the word,
`len(word) > 1`. -/
def processEntity (threshold : ℚ) (e : RawEntity) : Option MedicalEntity :=
  let score := e.score.getD 0
  let entity_type := e.entity.getD (e.entity_group.getD "UNKNOWN")
  let word := (e.word.getD "").replace "Ġ" ""
  if threshold ≤ score then
    if 1 < word.length then
      some { term := word, type := entity_type, score := score,
             start := e.start.getD 0, stop := e.stop.getD 0 }
    else none
  else none

/-- `MedicalNER.filter_medical_entities(entities, threshold)`: the loop
appends the processed entity for each raw entity that passes the filter. -/
def filter_medical_entities (entities : List RawEntity) (threshold : ℚ) :
    List MedicalEntity :=
  entities.filterMap (processEntity threshold)

theorem processEntity_mono {t1 t2 : ℚ} (h : t1 ≤ t2) (e : RawEntity)
    (m : MedicalEntity) (hm : processEntity t2 e = some m) :
    processEntity t1 e = some m := by
  unfold processEntity at hm ⊢
  simp only at hm ⊢
  split at hm
  · split at hm
    · rw [if_pos (le_trans h (by assumption)), if_pos (by assumption)]
      exact hm
    · exact absurd hm (by simp)
  · exact absurd hm (by simp)

/-- C5: entity filtering is monotone in the confidence threshold: every
entity returned by `filter_medical_entities` at the higher threshold `t2`
is also returned at the lower threshold `t1`. -/
theorem filter_medical_entities_monotone (E : List RawEntity) (t1 t2 : ℚ)
    (h : t1 < t2) (m : MedicalEntity)
    (hm : m ∈ filter_medical_entities E t2) :
    m ∈ filter_medical_entities E t1 := by
  unfold filter_medical_entities at hm ⊢
  rcases List.mem_filterMap.mp hm with ⟨e, he, hpe⟩
  exact List.mem_filterMap.mpr ⟨e, he, processEntity_mono (le_of_lt h) e m hpe⟩

/-- A concrete raw entity used by witnesses. -/
def rawSample : RawEntity :=
  { score := some 1, entity := some "DRUG", entity_group := none,
    word := some "aspirin", start := some 3, stop := some 10 }

/-- Witness for C5 at a concrete input: the entity kept at threshold 8/10
is also kept at threshold 1/2. -/
theorem filter_medical_entities_monotone_witness :
    (1 : ℚ)/2 < 8/10 ∧
    ∀ m ∈ filter_medical_entities [rawSample] (8/10),
      m ∈ filter_medical_entities [rawSample] (1/2) := by
  refine ⟨by norm_num, ?_⟩
  intro m hm
  exact filter_medical_entities_monotone [rawSample] (1/2) (8/10)
    (by norm_num) m hm

/-- C10: `filter_medical_entities` is total over entity records with
missing keys: a missing `score` is read as 0, so the entity is dropped at
every positive threshold; an entity with both `entity` and `entity_group`
missing that is kept is typed `UNKNOWN`; and (totality) the filter of any
list of raw entities is always a defined list, whatever keys are missing. -/
theorem filter_medical_entities_missing_keys (e : RawEntity) (t : ℚ) :
    (e.score = none → 0 < t → processEntity t e = none) ∧
    (e.entity = none → e.entity_group = none →
      ∀ m, processEntity t e = some m → m.type = "UNKNOWN") ∧
    (∀ es : List RawEntity,
      filter_medical_entities es t = es.filterMap (processEntity t)) := by
  refine ⟨?_, ?_, fun _ => rfl⟩
  · intro hs ht
    unfold processEntity
    rw [hs]
    simp only [Option.getD_none]
    rw [if_neg (not_le.mpr ht)]
  · intro he hg m hm
    unfold processEntity at hm
    rw [he, hg] at hm
    simp only [Option.getD_none] at hm
    split at hm
    · split at hm
      · cases hm
        rfl
      · exact absurd hm (by simp)
    · exact absurd hm (by simp)

/-- A raw entity with every optional key absent. -/
def rawEmpty : RawEntity :=
  { score := none, entity := none, entity_group := none,
    word := none, start := none, stop := none }

/-- Witness for C10 at concrete inputs: the keyless entity is dropped at
threshold 1/2; an entity with no type keys but a good score and word is
typed `UNKNOWN`; the filter evaluates on a concrete mixed list. -/
theorem filter_medical_entities_missing_keys_witness :
    processEntity (1/2) rawEmpty = none ∧
    (∀ m, processEntity (1/2)
        { rawEmpty with score := some 1, word := some "abc" } = some m →
      m.type = "UNKNOWN") ∧
    filter_medical_entities [rawEmpty, rawSample] (1/2) =
      [rawEmpty, rawSample].filterMap (processEntity (1/2)) := by
  refine ⟨?_, ?_, ?_⟩
  · exact (filter_medical_entities_missing_keys rawEmpty (1/2)).1 rfl
      (by norm_num)
  · intro m hm
    exact (filter_medical_entities_missing_keys
      { rawEmpty with score := some 1, word := some "abc" } (1/2)).2.1
      rfl rfl m hm
  · exact (filter_medical_entities_missing_keys rawEmpty (1/2)).2.2
      [rawEmpty, rawSample]

/-! ## Entity extraction engine state machine (`MedicalNER`) -/

/-- The mutable state of a `MedicalNER` instance: `model_name` and the
lazily loaded pipeline `ner_model` (identified, when loaded, by the name
of the model it was built from). -/
structure NERState where
  model_name : String
  ner_model : Option String
deriving DecidableEq, Repr

/-- The default primary model of `MedicalNER.__init__`. -/
def primaryModel : String := "yikuan8/Clinical-Longformer-NER"

/-- The statically ranked fallback list `MedicalNER.fallback_models`. -/
def fallback_models : List String :=
  ["Jean-Baptiste/roberta-large-ner-english",
   "dslim/bert-base-NER",
   "dbmdz/bert-large-cased-finetuned-conll03-english"]

/-- The state of a freshly constructed `MedicalNER()`. -/
def nerInit : NERState := { model_name := primaryModel, ner_model := none }

/-- The external world as seen by `MedicalNER` during one call:
whether `pipeline("ner", model=m)` succeeds for each model name `m`,
whether invoking the loaded pipeline `m` on the current text raises, and
which raw entities it returns when it does not. -/
structure NEREnv where
  loadOk : String → Bool
  inferOk : String → Bool
  inferResult : String → List RawEntity

/-- `MedicalNER.load_model`: if a pipeline is already loaded, do nothing;
otherwise try the current `model_name`, then each entry of
`fallback_models` in order (on a fallback success, `model_name` is
overwritten with the fallback's name); if every load raises, the
`ValueError` is modelled by the `false` flag, with the state unchanged. -/
def load_model (env : NEREnv) (s : NERState) : NERState × Bool :=
  match s.ner_model with
  | some _ => (s, true)
  | none =>
    if env.loadOk s.model_name then
      ({ s with ner_model := some s.model_name }, true)
    else
      match fallback_models.find? (fun m => env.loadOk m) with
      | some m => ({ model_name := m, ner_model := some m }, true)
      | none => (s, false)

/-- `MedicalNER.extract_entities`: load the model if needed, then run it
on the text; any exception (load failure or inference failure) is
re-raised, modelled as a `none` result with the state as mutated so far. -/
def extract_entities (env : NEREnv) (s : NERState) :
    NERState × Option (List RawEntity) :=
  match load_model env s with
  | (s1, false) => (s1, none)
  | (s1, true) =>
    match s1.ner_model with
    | some m => if env.inferOk m then (s1, some (env.inferResult m)) else (s1, none)
    | none => (s1, none)

/-- `MedicalNER.extract_medical_entities(text, threshold)`: extract and
filter; on any exception, save `model_name`, point the instance at the
first fallback model with a forced reload and retry once; on success of
the retry restore `model_name` and clear the loaded pipeline; if the
retry also fails, return the empty list.  (The NumPy-to-native value
conversion is the identity here, scores being already rationals.) -/
def extract_medical_entities (env : NEREnv) (s : NERState) (threshold : ℚ) :
    NERState × List MedicalEntity :=
  let p := extract_entities env s
  match p.2 with
  | some raw => (p.1, filter_medical_entities raw threshold)
  | none =>
    let original_model := p.1.model_name
    let q := extract_entities env
      { model_name := "Jean-Baptiste/roberta-large-ner-english",
        ner_model := none }
    match q.2 with
    | some raw =>
      ({ model_name := original_model, ner_model := none },
       filter_medical_entities raw threshold)
    | none => (q.1, [])

/-- An environment in which the primary model fails to load, every other
model loads, and inference always succeeds returning no entities. -/
def envPrimaryLoadFails : NEREnv :=
  { loadOk := fun m => !(m == primaryModel),
    inferOk := fun _ => true,
    inferResult := fun _ => [] }

/-- C1 counterexample: starting from a fresh engine in an environment
where only the primary model fails to load, `extract_medical_entities`
returns successfully, yet the post-state keeps the first fallback as the
active model (name and loaded handle), so the next call does NOT begin
with the primary model: the fallback adopted inside `load_model` is
sticky. -/
theorem extract_sticky_load_fallback_counterexample :
    (extract_medical_entities envPrimaryLoadFails nerInit (7/10)).1 =
      { model_name := "Jean-Baptiste/roberta-large-ner-english",
        ner_model := some "Jean-Baptiste/roberta-large-ner-english" } ∧
    ¬ (extract_medical_entities envPrimaryLoadFails nerInit (7/10)).1.model_name
        = primaryModel ∧
    (extract_medical_entities envPrimaryLoadFails
      (extract_medical_entities envPrimaryLoadFails nerInit (7/10)).1
      (7/10)).1.model_name =
        "Jean-Baptiste/roberta-large-ner-english" := by
  refine ⟨by decide, by decide, by decide⟩

/-- C1 amended: only the fallback taken inside the exception handler of
`extract_medical_entities` is per-call: when the first extraction attempt
raises and the retry with the hard-coded fallback model succeeds, the
returned state restores the pre-retry `model_name` and clears the loaded
pipeline.  (A fallback adopted inside `load_model` because the primary
failed to load persists instead, per the counterexample.) -/
theorem extract_medical_entities_handler_fallback_reverts
    (env : NEREnv) (s : NERState) (t : ℚ) (raw : List RawEntity)
    (h1 : (extract_entities env s).2 = none)
    (h2 : (extract_entities env
        { model_name := "Jean-Baptiste/roberta-large-ner-english",
          ner_model := none }).2 = some raw) :
    extract_medical_entities env s t =
      ({ model_name := (extract_entities env s).1.model_name,
         ner_model := none },
       filter_medical_entities raw t) := by
  unfold extract_medical_entities
  simp only [h1, h2]

/-- An environment in which every model loads but only the first fallback
model's inference succeeds. -/
def envPrimaryInferFails : NEREnv :=
  { loadOk := fun _ => true,
    inferOk := fun m => m == "Jean-Baptiste/roberta-large-ner-english",
    inferResult := fun _ => [rawSample] }

/-- Witness for the amended C1 at a concrete input: primary inference
fails, the handler fallback succeeds, and the post-state is the primary
name with a cleared handle. -/
theorem extract_medical_entities_handler_fallback_reverts_witness :
    (extract_entities envPrimaryInferFails nerInit).2 = none ∧
    (extract_entities envPrimaryInferFails
      { model_name := "Jean-Baptiste/roberta-large-ner-english",
        ner_model := none }).2 = some [rawSample] ∧
    extract_medical_entities envPrimaryInferFails nerInit (1/2) =
      ({ model_name := primaryModel, ner_model := none },
       filter_medical_entities [rawSample] (1/2)) := by
  refine ⟨by decide, by decide, ?_⟩
  exact extract_medical_entities_handler_fallback_reverts
    envPrimaryInferFails nerInit (1/2) [rawSample] (by decide) (by decide)

/-- C3: when extraction fails in the primary attempt and the fallback
retry also fails (model load error or inference error in each),
`extract_medical_entities` returns the empty entity list; being a total
function, it propagates no exception to its caller. -/
theorem extract_medical_entities_exhausted_empty
    (env : NEREnv) (s : NERState) (t : ℚ)
    (h1 : (extract_entities env s).2 = none)
    (h2 : (extract_entities env
        { model_name := "Jean-Baptiste/roberta-large-ner-english",
          ner_model := none }).2 = none) :
    (extract_medical_entities env s t).2 = [] := by
  unfold extract_medical_entities
  simp only [h1, h2]

/-- An environment in which no model at all loads. -/
def envAllLoadFail : NEREnv :=
  { loadOk := fun _ => false,
    inferOk := fun _ => false,
    inferResult := fun _ => [] }

/-- Witness for C3 at a concrete input: with every model load failing,
both attempts raise and the call returns the empty list. -/
theorem extract_medical_entities_exhausted_empty_witness :
    (extract_entities envAllLoadFail nerInit).2 = none ∧
    (extract_entities envAllLoadFail
      { model_name := "Jean-Baptiste/roberta-large-ner-english",
        ner_model := none }).2 = none ∧
    (extract_medical_entities envAllLoadFail nerInit (7/10)).2 = [] := by
  refine ⟨by decide, by decide, ?_⟩
  exact extract_medical_entities_exhausted_empty envAllLoadFail nerInit
    (7/10) (by decide) (by decide)

/-! ## Report formatting (`MedicalNER.format_entities_for_report`) -/

/-- The sentinel of `format_entities_for_report` for an empty entity
list (medical_ner.py line 217). -/
def noEntitiesSentinel : String := "No significant medical entities detected."

/-- Python's `sep.join(items)`. -/
def joinWith (sep : String) : List String → String
  | [] => ""
  | [s] => s
  | s :: t :: rest => s ++ sep ++ joinWith sep (t :: rest)

/-- One step of the duplicate-dropping loop of
`format_entities_for_report` (medical_ner.py lines 231-234). -/
def uniqueAdd (acc : List String) (t : String) : List String :=
  if t ∈ acc then acc else acc ++ [t]

/-- The `unique_terms` list computed inside `format_entities_for_report`:
drop duplicates while preserving order. -/
def uniqueTerms (terms : List String) : List String :=
  terms.foldl uniqueAdd []

/-- One step of the grouping loop of `format_entities_for_report`
(medical_ner.py lines 220-225): a Python dict in insertion order is an
association list; a new type key is appended at the end, an existing
key has the term appended to its list. -/
def groupStep (gs : List (String × List String)) (e : MedicalEntity) :
    List (String × List String) :=
  if e.type ∈ gs.map Prod.fst then
    gs.map (fun g => if g.1 = e.type then (g.1, g.2 ++ [e.term]) else g)
  else gs ++ [(e.type, [e.term])]

/-- The `entity_groups` dict of `format_entities_for_report`, as an
insertion-ordered association list. -/
def entityGroups (E : List MedicalEntity) : List (String × List String) :=
  E.foldl groupStep []

/-- `MedicalNER.format_entities_for_report(entities)` (medical_ner.py
lines 206-238): sentinel on the empty list, else one
`"TYPE: term, term, ..."` line per group, joined by newlines. -/
def format_entities_for_report (E : List MedicalEntity) : String :=
  if E.isEmpty then noEntitiesSentinel
  else joinWith "\n" ((entityGroups E).map
    (fun g => g.1 ++ ": " ++ joinWith ", " (uniqueTerms g.2)))

/-- Specification-side description of first-seen-order deduplication:
keep the first occurrence of each element, dropping later duplicates. -/
def firstSeen : List String → List String
  | [] => []
  | t :: ts => t :: firstSeen (ts.filter (fun x => x ≠ t))
termination_by l => l.length
decreasing_by
  exact Nat.lt_succ_of_le (ts.length_filter_le _)

theorem firstSeen_nil : firstSeen [] = [] := by
  rw [firstSeen]

theorem firstSeen_cons (t : String) (ts : List String) :
    firstSeen (t :: ts) = t :: firstSeen (ts.filter (fun x => x ≠ t)) := by
  rw [firstSeen]

theorem mem_firstSeen (x : String) : ∀ (l : List String), x ∈ firstSeen l ↔ x ∈ l := by
  have key : ∀ (n : Nat) (l : List String), l.length ≤ n →
      (x ∈ firstSeen l ↔ x ∈ l) := by
    intro n
    induction n with
    | zero =>
      intro l hl
      rw [List.length_eq_zero.mp (Nat.le_zero.mp hl)]
      simp [firstSeen_nil]
    | succ n ih =>
      intro l hl
      match l with
      | [] => simp [firstSeen_nil]
      | t :: ts =>
        rw [firstSeen_cons]
        simp only [List.mem_cons]
        constructor
        · rintro (rfl | hx)
          · exact Or.inl rfl
          · have := (ih _ (le_trans (ts.length_filter_le _)
              (Nat.le_of_succ_le_succ hl))).mp hx
            exact Or.inr (List.mem_of_mem_filter this)
        · rintro (rfl | hx)
          · exact Or.inl rfl
          · by_cases hxt : x = t
            · exact Or.inl hxt
            · refine Or.inr ((ih _ (le_trans (ts.length_filter_le _)
                (Nat.le_of_succ_le_succ hl))).mpr ?_)
              exact List.mem_filter.mpr ⟨hx, by simp [hxt]⟩
  exact fun l => key l.length l le_rfl

theorem firstSeen_append_singleton (a : String) : ∀ (l : List String),
    firstSeen (l ++ [a]) =
      if a ∈ l then firstSeen l else firstSeen l ++ [a] := by
  have key : ∀ (n : Nat) (l : List String), l.length ≤ n →
      firstSeen (l ++ [a]) =
        if a ∈ l then firstSeen l else firstSeen l ++ [a] := by
    intro n
    induction n with
    | zero =>
      intro l hl
      rw [List.length_eq_zero.mp (Nat.le_zero.mp hl)]
      simp [firstSeen_cons, firstSeen_nil]
    | succ n ih =>
      intro l hl
      match l with
      | [] => simp [firstSeen_cons, firstSeen_nil]
      | t :: ts =>
        have hfilter : (ts ++ [a]).filter (fun x => x ≠ t) =
            ts.filter (fun x => x ≠ t) ++ if a = t then [] else [a] := by
          rw [List.filter_append]
          congr 1
          by_cases hat : a = t <;> simp [hat]
        rw [List.cons_append, firstSeen_cons, hfilter]
        by_cases hat : a = t
        · rw [if_pos hat, List.append_nil, if_pos (by simp [hat]), firstSeen_cons]
        · rw [if_neg hat]
          rw [ih _ (le_trans (ts.length_filter_le _) (Nat.le_of_succ_le_succ hl))]
          by_cases hats : a ∈ ts
          · rw [if_pos (List.mem_filter.mpr ⟨hats, by simp [hat]⟩),
              if_pos (by simp [hats]), firstSeen_cons]
          · rw [if_neg (fun hmem => hats (List.mem_of_mem_filter hmem)),
              if_neg (by simp [hat, hats]), firstSeen_cons, List.cons_append]
  exact fun l => key l.length l le_rfl

theorem uniqueAdd_foldl (l : List String) : ∀ (acc : List String),
    l.foldl uniqueAdd acc = acc ++ firstSeen (l.filter (fun x => x ∉ acc)) := by
  induction l with
  | nil => intro acc; simp [firstSeen_nil]
  | cons t ts ih =>
    intro acc
    rw [List.foldl_cons]
    by_cases ht : t ∈ acc
    · rw [show uniqueAdd acc t = acc from if_pos ht, ih acc]
      congr 2
      rw [List.filter_cons, if_neg (by simp [ht])]
    · rw [show uniqueAdd acc t = acc ++ [t] from if_neg ht, ih (acc ++ [t])]
      rw [List.filter_cons, if_pos (by simp [ht]), firstSeen_cons,
        List.append_assoc]
      have hfeq : ts.filter (fun x => x ∉ acc ++ [t]) =
          (ts.filter (fun x => x ∉ acc)).filter (fun x => x ≠ t) := by
        rw [List.filter_filter]
        apply List.filter_congr
        intro x _
        by_cases hxt : x = t <;> by_cases hxa : x ∈ acc <;>
          simp [hxt, hxa, List.mem_append]
      rw [hfeq]
      rfl

theorem uniqueTerms_eq_firstSeen (l : List String) :
    uniqueTerms l = firstSeen l := by
  unfold uniqueTerms
  rw [uniqueAdd_foldl l []]
  simp

/-- Specification-side description of the grouping: the group keys are
the entity types in first-occurrence order, and each group carries the
terms of its type's entities in sequence order. -/
def groupsSpec (E : List MedicalEntity) : List (String × List String) :=
  (firstSeen (E.map (fun e => e.type))).map
    (fun ty => (ty, (E.filter (fun e => e.type = ty)).map (fun e => e.term)))

theorem groupsSpec_fst (E : List MedicalEntity) :
    (groupsSpec E).map Prod.fst = firstSeen (E.map (fun e => e.type)) := by
  unfold groupsSpec
  rw [List.map_map]
  simp [Function.comp_def]

theorem groupStep_spec (P : List MedicalEntity) (e : MedicalEntity) :
    groupStep (groupsSpec P) e = groupsSpec (P ++ [e]) := by
  have hmapP : (P ++ [e]).map (fun x => x.type) =
      P.map (fun x => x.type) ++ [e.type] := by
    rw [List.map_append]
    rfl
  have hfilapp : ∀ ty, (P ++ [e]).filter (fun x => x.type = ty) =
      P.filter (fun x => x.type = ty) ++
        if e.type = ty then [e] else [] := by
    intro ty
    rw [List.filter_append]
    congr 1
    by_cases hty : e.type = ty <;> simp [hty]
  unfold groupStep
  rw [groupsSpec_fst]
  by_cases hin : e.type ∈ P.map (fun x => x.type)
  · rw [if_pos ((mem_firstSeen _ _).mpr hin)]
    unfold groupsSpec
    rw [hmapP, firstSeen_append_singleton, if_pos hin, List.map_map]
    apply List.map_congr_left
    intro ty _
    simp only [Function.comp]
    by_cases hty : ty = e.type
    · rw [if_pos hty, hfilapp, if_pos hty.symm, List.map_append]
      rfl
    · rw [if_neg hty, hfilapp, if_neg (fun h => hty h.symm), List.append_nil]
  · rw [if_neg (fun h => hin ((mem_firstSeen _ _).mp h))]
    unfold groupsSpec
    rw [hmapP, firstSeen_append_singleton, if_neg hin, List.map_append]
    congr 1
    · apply List.map_congr_left
      intro ty hty
      have htymem : ty ∈ P.map (fun x => x.type) := (mem_firstSeen ty _).mp hty
      rw [hfilapp, if_neg (fun h : e.type = ty => hin (by rw [h]; exact htymem)),
        List.append_nil]
    · rw [List.map_cons, List.map_nil]
      rw [hfilapp, if_pos rfl]
      have hempty : P.filter (fun x => x.type = e.type) = [] := by
        rw [List.filter_eq_nil_iff]
        intro a ha hcontra
        exact hin (List.mem_map.mpr ⟨a, ha, by
          simpa using hcontra⟩)
      rw [hempty]
      rfl

theorem entityGroups_eq_groupsSpec (E : List MedicalEntity) :
    entityGroups E = groupsSpec E := by
  have key : ∀ (l P : List MedicalEntity),
      l.foldl groupStep (groupsSpec P) = groupsSpec (P ++ l) := by
    intro l
    induction l with
    | nil => intro P; simp
    | cons e es ih =>
      intro P
      rw [List.foldl_cons, groupStep_spec, ih (P ++ [e])]
      rw [List.append_assoc]
      rfl
  have h0 : groupsSpec ([] : List MedicalEntity) = [] := by
    unfold groupsSpec
    simp [firstSeen_nil]
  unfold entityGroups
  have := key E []
  rw [h0] at this
  rw [this]
  rfl

theorem joinWith_cons (sep x : String) (xs : List String) :
    ∃ rest, joinWith sep (x :: xs) = x ++ rest := by
  match xs with
  | [] => exact ⟨"", by rw [joinWith]; exact (String.append_empty x).symm⟩
  | t :: r => exact ⟨sep ++ joinWith sep (t :: r), by rw [joinWith, String.append_assoc]⟩

theorem string_append_data (a b : String) : (a ++ b).data = a.data ++ b.data := rfl

/-- C4: `format_entities_for_report` groups entities by type in order of
first occurrence, keeps first-seen term order while dropping duplicate
terms inside each group, emits one `"TYPE: term, term, ..."` line per
group joined by newlines, and yields the no-entities sentinel exactly for
the empty entity list. -/
theorem format_entities_for_report_spec (E : List MedicalEntity) :
    (format_entities_for_report E = noEntitiesSentinel ↔ E = []) ∧
    entityGroups E = groupsSpec E ∧
    (∀ l, uniqueTerms l = firstSeen l) ∧
    (E ≠ [] → format_entities_for_report E =
      joinWith "\n" ((firstSeen (E.map (fun e => e.type))).map
        (fun ty => ty ++ ": " ++ joinWith ", "
          (firstSeen ((E.filter (fun e => e.type = ty)).map
            (fun e => e.term)))))) := by
  have hform : E ≠ [] → format_entities_for_report E =
      joinWith "\n" ((firstSeen (E.map (fun e => e.type))).map
        (fun ty => ty ++ ": " ++ joinWith ", "
          (firstSeen ((E.filter (fun e => e.type = ty)).map
            (fun e => e.term))))) := by
    intro hne
    unfold format_entities_for_report
    rw [if_neg (by simpa [List.isEmpty_iff] using hne)]
    rw [entityGroups_eq_groupsSpec]
    unfold groupsSpec
    rw [List.map_map]
    congr 1
    apply List.map_congr_left
    intro ty _
    simp only [Function.comp]
    rw [uniqueTerms_eq_firstSeen]
  refine ⟨?_, entityGroups_eq_groupsSpec E, uniqueTerms_eq_firstSeen, hform⟩
  constructor
  · intro hsent
    by_contra hne
    rw [hform hne] at hsent
    match hE : E with
    | [] => exact hne rfl
    | e0 :: E1 =>
      rw [List.map_cons, firstSeen_cons, List.map_cons] at hsent
      rcases joinWith_cons "\n"
        (e0.type ++ ": " ++ joinWith ", "
          (firstSeen (((e0 :: E1).filter (fun e => e.type = e0.type)).map
            (fun e => e.term)))) _ with ⟨rest, hjw⟩
      rw [hjw] at hsent
      have hcolon : ':' ∈ (e0.type ++ ": " ++ joinWith ", "
          (firstSeen (((e0 :: E1).filter (fun e => e.type = e0.type)).map
            (fun e => e.term))) ++ rest).data := by
        rw [string_append_data, string_append_data, string_append_data]
        refine List.mem_append.mpr (Or.inl ?_)
        refine List.mem_append.mpr (Or.inl ?_)
        refine List.mem_append.mpr (Or.inr ?_)
        decide
      rw [hsent] at hcolon
      revert hcolon
      decide
  · intro hE
    rw [hE]
    rfl

/-- Concrete entities for the C4 witness: two types, a duplicate term. -/
def sampleEntities : List MedicalEntity :=
  [{ term := "headache", type := "SYMPTOM", score := 1, start := 0, stop := 8 },
   { term := "nausea", type := "SYMPTOM", score := 1, start := 10, stop := 16 },
   { term := "headache", type := "SYMPTOM", score := 1, start := 20, stop := 28 },
   { term := "migraine", type := "DIAGNOSIS", score := 1, start := 30, stop := 38 }]

/-- Witness for C4 at a concrete input: the grouped report line format,
with the duplicate term dropped, and its literal value. -/
theorem format_entities_for_report_spec_witness :
    sampleEntities ≠ [] ∧
    format_entities_for_report sampleEntities =
      joinWith "\n" ((firstSeen (sampleEntities.map (fun e => e.type))).map
        (fun ty => ty ++ ": " ++ joinWith ", "
          (firstSeen ((sampleEntities.filter (fun e => e.type = ty)).map
            (fun e => e.term))))) ∧
    format_entities_for_report sampleEntities =
      "SYMPTOM: headache, nausea\nDIAGNOSIS: migraine" := by
  refine ⟨by simp [sampleEntities], ?_, by decide⟩
  exact (format_entities_for_report_spec sampleEntities).2.2.2
    (by simp [sampleEntities])

/-! ## Report synthesis engine (`ReportGenerator`) -/

/-- Observable trace of one `generate_report` / `explain_medical_terms`
call: the returned string, how many times the external generative model
was invoked, and how many times the loop slept. -/
structure GenTrace where
  result : String
  calls : Nat
  sleeps : Nat
deriving DecidableEq, Repr

/-- The sentinel returned when every retry attempt failed
(report_generator.py line 135 and line 179). -/
def unavailableSentinel : String :=
  "Service is temporarily unavailable. Please try again later."

/-- The sentinel returned when the Gemini model was never configured
(report_generator.py line 124 and line 168). -/
def notInitializedSentinel : String :=
  "Error: Gemini model not initialized. Check API key."

/-- The retry loop shared by `ReportGenerator.generate_report` and
`ReportGenerator.explain_medical_terms` (report_generator.py lines
120-135 and 164-179): for each of the remaining iterations, first check
`self.model is None` (return the init-error sentinel without calling or
sleeping), else invoke the model (`attempt i`: `some text` on success,
`none` when `generate_content` raises); on success return the text; on
failure sleep the fixed delay and continue; when the iterations are
exhausted return the unavailability sentinel.  `i` is the index of the
next attempt. -/
def retryLoop (configured : Bool) (attempt : Nat → Option String) :
    Nat → Nat → GenTrace
  | _, 0 => { result := unavailableSentinel, calls := 0, sleeps := 0 }
  | i, rem + 1 =>
    match configured with
    | false => { result := notInitializedSentinel, calls := 0, sleeps := 0 }
    | true =>
      match attempt i with
      | some text => { result := text, calls := 1, sleeps := 0 }
      | none =>
        let r := retryLoop configured attempt (i + 1) rem
        { result := r.result, calls := r.calls + 1, sleeps := r.sleeps + 1 }

/-- `ReportGenerator.generate_report(entities, summary, retries, delay)`:
the prompt assembly is pure; the call's observable behaviour is the retry
loop over the generative collaborator, starting at attempt 0.
`configured` is `self.model is not None`; the fixed sleep delay (default
5s) affects no modelled observable beyond the sleep count. -/
def generate_report (configured : Bool) (attempt : Nat → Option String)
    (retries : Nat) : GenTrace :=
  retryLoop configured attempt 0 retries

/-- `ReportGenerator.explain_medical_terms(text, retries, delay)`: same
loop, different prompt. -/
def explain_medical_terms (configured : Bool) (attempt : Nat → Option String)
    (retries : Nat) : GenTrace :=
  retryLoop configured attempt 0 retries

theorem retryLoop_succeeds (attempt : Nat → Option String) (text : String) :
    ∀ k rem i, k < rem → (∀ j, j < k → attempt (i + j) = none) →
      attempt (i + k) = some text →
      retryLoop true attempt i rem = { result := text, calls := k + 1, sleeps := k } := by
  intro k
  induction k with
  | zero =>
    intro rem i hrem _ hk
    match rem, hrem with
    | rem + 1, _ =>
      unfold retryLoop
      rw [show i + 0 = i from rfl] at hk
      rw [hk]
  | succ n ih =>
    intro rem i hrem hfail hk
    match rem, hrem with
    | rem + 1, hrem =>
      unfold retryLoop
      have h0 : attempt i = none := by
        have := hfail 0 (Nat.succ_pos n)
        rwa [Nat.add_zero] at this
      rw [h0]
      have hrec : retryLoop true attempt (i + 1) rem =
          { result := text, calls := n + 1, sleeps := n } := by
        apply ih rem (i + 1) (Nat.lt_of_succ_lt_succ hrem)
        · intro j hj
          have := hfail (j + 1) (Nat.succ_lt_succ hj)
          rwa [show i + (j + 1) = i + 1 + j by omega] at this
        · rwa [show i + 1 + n = i + (n + 1) by omega]
      rw [hrec]

theorem retryLoop_all_fail (attempt : Nat → Option String)
    (hfail : ∀ j, attempt j = none) :
    ∀ rem i, retryLoop true attempt i rem =
      { result := unavailableSentinel, calls := rem, sleeps := rem } := by
  intro rem
  induction rem with
  | zero => intro i; rfl
  | succ n ih =>
    intro i
    unfold retryLoop
    rw [hfail i, ih (i + 1)]

/-- C2: for `generate_report` with a configured model and retry count `r`:
if the collaborator fails the first `n - 1` attempts and succeeds on the
`n`-th with `1 ≤ n ≤ r`, the returned string is the successful response
text after exactly `n` model invocations and `n - 1` sleeps; if every
attempt fails, the "service temporarily unavailable" sentinel is returned
after exactly `r` attempts (the embedded call is total, so no exception
reaches the caller). -/
theorem generate_report_retry (attempt : Nat → Option String)
    (n r : Nat) (text : String) (hn : 1 ≤ n) (hr : n ≤ r) :
    ((∀ j, j < n - 1 → attempt j = none) → attempt (n - 1) = some text →
      generate_report true attempt r =
        { result := text, calls := n, sleeps := n - 1 }) ∧
    ((∀ j, attempt j = none) →
      generate_report true attempt r =
        { result := unavailableSentinel, calls := r, sleeps := r }) := by
  constructor
  · intro hfail hsucc
    unfold generate_report
    have := retryLoop_succeeds attempt text (n - 1) r 0
      (by omega)
      (by intro j hj; rw [Nat.zero_add]; exact hfail j hj)
      (by rwa [Nat.zero_add])
    rw [this]
    congr 1
    omega
  · intro hfail
    exact retryLoop_all_fail attempt hfail r 0

/-- Witness for C2 at concrete inputs: with retries 3 and a collaborator
failing once then succeeding, the result is the text with 2 calls and 1
sleep; with an always-failing collaborator, the sentinel after 3 calls
and 3 sleeps. -/
theorem generate_report_retry_witness :
    generate_report true (fun j => if j = 0 then none else some "ok") 3 =
      { result := "ok", calls := 2, sleeps := 1 } ∧
    generate_report true (fun _ => none) 3 =
      { result := unavailableSentinel, calls := 3, sleeps := 3 } := by
  constructor
  · exact (generate_report_retry (fun j => if j = 0 then none else some "ok")
      2 3 "ok" (by omega) (by omega)).1
      (by intro j hj; simp [show j = 0 by omega])
      (by simp)
  · exact (generate_report_retry (fun _ => none) 1 3 "ok"
      (by omega) (by omega)).2 (fun _ => rfl)

/-- C7: when the generative model handle was never configured
(`self.model is None`), every `generate_report` and
`explain_medical_terms` call with at least one permitted attempt returns
the init-error sentinel with zero model invocations and zero sleeps. -/
theorem unconfigured_short_circuit (attempt : Nat → Option String)
    (r : Nat) (hr : 1 ≤ r) :
    generate_report false attempt r =
      { result := notInitializedSentinel, calls := 0, sleeps := 0 } ∧
    explain_medical_terms false attempt r =
      { result := notInitializedSentinel, calls := 0, sleeps := 0 } := by
  have key : retryLoop false attempt 0 r =
      { result := notInitializedSentinel, calls := 0, sleeps := 0 } := by
    match r, hr with
    | r + 1, _ =>
      unfold retryLoop
      simp
  exact ⟨key, key⟩

/-- Witness for C7 at a concrete input: with the default 3 retries and a
collaborator that would succeed, the unconfigured engine still returns
the init-error sentinel with no calls and no sleeps. -/
theorem unconfigured_short_circuit_witness :
    generate_report false (fun _ => some "ok") 3 =
      { result := notInitializedSentinel, calls := 0, sleeps := 0 } ∧
    explain_medical_terms false (fun _ => some "ok") 3 =
      { result := notInitializedSentinel, calls := 0, sleeps := 0 } :=
  unconfigured_short_circuit (fun _ => some "ok") 3 (by omega)

/-! ## Document renderer (`ReportGenerator.save_report_as_pdf`) -/

/-- Python `s.startswith(p)`. -/
def pyStartsWith (s p : String) : Bool := p.data.isPrefixOf s.data

/-- Python `s.endswith(p)`. -/
def pyEndsWith (s p : String) : Bool := p.data.isSuffixOf s.data

/-- Truthiness of Python `line.strip()`: true iff the line has some
non-whitespace character. -/
def pyStripTruthy (line : String) : Bool :=
  !(line.data.all (fun c => c.isWhitespace))

/-- Python `s.replace(pat, rep)` on character lists (left-to-right,
non-overlapping), with explicit fuel so the recursion is structural. -/
def pyReplaceFuel (pat rep : List Char) : Nat → List Char → List Char
  | 0, l => l
  | _, [] => []
  | fuel + 1, x :: xs =>
    if pat.isPrefixOf (x :: xs) && !pat.isEmpty then
      rep ++ pyReplaceFuel pat rep fuel ((x :: xs).drop pat.length)
    else x :: pyReplaceFuel pat rep fuel xs

/-- Python `s.replace(pat, rep)` for a non-empty pattern. -/
def pyReplace (s pat rep : String) : String :=
  ⟨pyReplaceFuel pat.data rep.data s.data.length s.data⟩

/-- Python `s.split(sep)` for a one-character separator. -/
def pySplitChar (c : Char) : List Char → List (List Char)
  | [] => [[]]
  | x :: xs =>
    let r := pySplitChar c xs
    if x = c then [] :: r
    else
      match r with
      | [] => [[x]]
      | h :: t => (x :: h) :: t

/-- Python `text.split("\n")`. -/
def pySplitLines (s : String) : List String :=
  (pySplitChar (Char.ofNat 10) s.data).map (fun cs => ⟨cs⟩)

/-- A document element produced by the renderer: a styled paragraph or a
fixed vertical spacer. -/
inductive PdfElement where
  | title (s : String)
  | heading1 (s : String)
  | heading2 (s : String)
  | normal (s : String)
  | spacer (w h : Nat)
deriving DecidableEq, Repr

/-- The per-line classification of `save_report_as_pdf`
(report_generator.py lines 203-208), in the code's precedence order:
`line.startswith("###")` makes a Heading1 with every occurrence of the
marker removed (`line.replace("###", "")`); otherwise a line starting and
ending with `**` makes a Heading2 (text kept verbatim); otherwise a
Normal paragraph. -/
def classifyLine (line : String) : PdfElement :=
  if pyStartsWith line "###" then
    PdfElement.heading1 (pyReplace line "###" "")
  else if pyStartsWith line "**" && pyEndsWith line "**" then
    PdfElement.heading2 line
  else
    PdfElement.normal line

/-- The document title emitted once at the start
(report_generator.py line 197). -/
def reportTitle : String := "<b>Patient Clinical Report</b>"

/-- The element list built by `save_report_as_pdf` before `doc.build`
(report_generator.py lines 195-210): the title and a 12-point spacer,
then, for each line of the text split on newlines whose strip is truthy,
its classified paragraph followed by a 6-point spacer. -/
def renderElements (report_text : String) : List PdfElement :=
  [PdfElement.title reportTitle, PdfElement.spacer 1 12] ++
    (pySplitLines report_text).foldl
      (fun acc line =>
        if pyStripTruthy line then
          acc ++ [classifyLine line, PdfElement.spacer 1 6]
        else acc) []

theorem renderFold_spec (lines : List String) : ∀ (acc : List PdfElement),
    lines.foldl
      (fun acc line =>
        if pyStripTruthy line then
          acc ++ [classifyLine line, PdfElement.spacer 1 6]
        else acc) acc =
    acc ++ (lines.filter (fun line => pyStripTruthy line)).flatMap
      (fun line => [classifyLine line, PdfElement.spacer 1 6]) := by
  induction lines with
  | nil => intro acc; simp
  | cons l ls ih =>
    intro acc
    rw [List.foldl_cons, List.filter_cons]
    cases h : pyStripTruthy l
    · rw [if_neg (by simp [h]), if_neg (by simp [h]), ih acc]
    · rw [if_pos (by simp [h]), if_pos (by simp [h]), ih (acc ++ _)]
      simp

/-- C6: the renderer emits the single title heading and its spacer first,
then one classified paragraph followed by the fixed 6-point spacer for
each non-blank line of the report (whitespace-only lines emit nothing),
where classification follows the exact three-way precedence: a `###`
prefix gives a top-level heading with the marker text removed, else `**`
at both ends gives a sub-heading, else normal body text. -/
theorem renderElements_spec (t : String) :
    renderElements t =
      [PdfElement.title reportTitle, PdfElement.spacer 1 12] ++
        ((pySplitLines t).filter (fun line => pyStripTruthy line)).flatMap
          (fun line => [classifyLine line, PdfElement.spacer 1 6]) ∧
    (∀ line : String,
      (pyStartsWith line "###" = true →
        classifyLine line = PdfElement.heading1 (pyReplace line "###" "")) ∧
      (pyStartsWith line "###" = false →
        (pyStartsWith line "**" && pyEndsWith line "**") = true →
        classifyLine line = PdfElement.heading2 line) ∧
      (pyStartsWith line "###" = false →
        (pyStartsWith line "**" && pyEndsWith line "**") = false →
        classifyLine line = PdfElement.normal line)) := by
  constructor
  · unfold renderElements
    rw [renderFold_spec]
    simp
  · intro line
    refine ⟨?_, ?_, ?_⟩
    · intro h1
      unfold classifyLine
      rw [if_pos h1]
    · intro h1 h2
      unfold classifyLine
      rw [if_neg (by simp [h1]), if_pos h2]
    · intro h1 h2
      unfold classifyLine
      rw [if_neg (by simp [h1]), if_neg (by simp [h2])]

/-- Witness for C6 at the spec example report: a `###` line, a blank
line, a `**`-wrapped line and a body line produce exactly a top-level
heading, a sub-heading and a body paragraph in that order, each followed
by the fixed spacer, after the single title block, with nothing for the
blank line. -/
theorem renderElements_spec_witness :
    renderElements "### Heading\n   \n**Sub**\nBody text" =
      [PdfElement.title reportTitle, PdfElement.spacer 1 12,
       PdfElement.heading1 " Heading", PdfElement.spacer 1 6,
       PdfElement.heading2 "**Sub**", PdfElement.spacer 1 6,
       PdfElement.normal "Body text", PdfElement.spacer 1 6] ∧
    classifyLine "### Heading" = PdfElement.heading1 " Heading" ∧
    classifyLine "**Sub**" = PdfElement.heading2 "**Sub**" ∧
    classifyLine "Body text" = PdfElement.normal "Body text" := by
  refine ⟨?_, ?_, ?_, ?_⟩
  · rw [(renderElements_spec "### Heading\n   \n**Sub**\nBody text").1]
    decide
  · have := ((renderElements_spec "x").2 "### Heading").1 (by decide)
    rw [this]
    decide
  · exact ((renderElements_spec "x").2 "**Sub**").2.1 (by decide) (by decide)
  · exact ((renderElements_spec "x").2 "Body text").2.2 (by decide) (by decide)

/-! ## Knowledge index adapter (`MedicalKnowledgeBase`, vector_store.py) -/

/-- The mutable state of a `MedicalKnowledgeBase`: the lazily loaded
embedding model (by name) and the in-memory FAISS index (abstracted as
the list of indexed chunks). -/
structure KBState where
  embedding_model_name : String
  embeddings : Option String
  faiss_index : Option (List String)
deriving DecidableEq, Repr

/-- The external world of one knowledge-base call: whether the embedding
model loads, the persisted index at the fixed path (`none` when
`os.path.exists` is false), whether `FAISS.load_local` succeeds, whether
`similarity_search` succeeds, and what it returns. -/
structure KBEnv where
  embedLoadOk : Bool
  diskIndex : Option (List String)
  loadLocalOk : Bool
  searchOk : Bool
  searchResult : List String

/-- `MedicalKnowledgeBase.load_embeddings` (vector_store.py lines 32-43):
load the embedding model if absent; a load failure re-raises, modelled by
the `false` flag. -/
def load_embeddings (env : KBEnv) (s : KBState) : KBState × Bool :=
  match s.embeddings with
  | some _ => (s, true)
  | none =>
    if env.embedLoadOk then
      ({ s with embeddings := some s.embedding_model_name }, true)
    else (s, false)

/-- `MedicalKnowledgeBase.load_index` (vector_store.py lines 108-140):
return `False` when no file exists at the index path; otherwise load the
embeddings and the persisted index, catching every exception as `False`;
`faiss_index` is only assigned on success. -/
def load_index (env : KBEnv) (s : KBState) : KBState × Bool :=
  match env.diskIndex with
  | none => (s, false)
  | some idx =>
    match load_embeddings env s with
    | (s1, false) => (s1, false)
    | (s1, true) =>
      if env.loadLocalOk then ({ s1 with faiss_index := some idx }, true)
      else (s1, false)

/-- `MedicalKnowledgeBase.query` (vector_store.py lines 142-167): when no
in-memory index exists, first try `load_index`; if that fails, return the
empty list; otherwise run `similarity_search`, catching any exception as
the empty list. -/
def query (env : KBEnv) (s : KBState) : KBState × List String :=
  let step1 : KBState × Bool :=
    match s.faiss_index with
    | some _ => (s, true)
    | none => load_index env s
  match step1 with
  | (s1, false) => (s1, [])
  | (s1, true) => if env.searchOk then (s1, env.searchResult) else (s1, [])

/-- C8: a query on a state with no in-memory index first attempts
`load_index`; when the load fails — in particular when no persisted index
exists on disk — the query returns the empty result list with the state
load left it in; the embedded `query` is total, so no exception reaches
the caller. -/
theorem query_fails_soft (env : KBEnv) (s : KBState)
    (hmem : s.faiss_index = none) :
    ((load_index env s).2 = false →
      query env s = ((load_index env s).1, [])) ∧
    (env.diskIndex = none → query env s = (s, [])) := by
  constructor
  · intro hload
    unfold query
    rw [hmem]
    simp only
    rcases hl : load_index env s with ⟨s1, ok⟩
    rw [hl] at hload
    simp only at hload
    subst hload
    rfl
  · intro hdisk
    unfold query
    rw [hmem]
    simp only
    unfold load_index
    rw [hdisk]

/-- A fresh `MedicalKnowledgeBase()` state. -/
def kbInit : KBState :=
  { embedding_model_name := "sentence-transformers/all-MiniLM-L6-v2",
    embeddings := none, faiss_index := none }

/-- Witness for C8 at a concrete input: with nothing on disk and no
in-memory index, the query returns the empty list and leaves the state
unchanged. -/
theorem query_fails_soft_witness :
    query { embedLoadOk := true, diskIndex := none, loadLocalOk := true,
            searchOk := true, searchResult := ["doc"] } kbInit =
      (kbInit, []) := by
  exact (query_fails_soft _ kbInit rfl).2 rfl

/-! ## Pipeline orchestrator (`process_full`, api/app.py lines 183-238) -/

/-- The stage collaborators of the full pipeline. -/
structure PipeEnv where
  transcribe : String → String
  extractEnts : String → List MedicalEntity
  summarize : String → String
  genReport : List MedicalEntity → String → String

/-- The HTTP exception of the boundary layer: status code and detail. -/
structure HTTPExc where
  status : Nat
  detail : String
deriving DecidableEq, Repr

/-- Python `str(e)` for a starlette `HTTPException`:
`f"{status_code}: {detail}"`. -/
def strOfHTTPExc (e : HTTPExc) : String :=
  toString e.status ++ ": " ++ e.detail

/-- The outcome of a `/process` request. -/
inductive ProcResult where
  | success (transcription : String) (entities : List MedicalEntity)
      (summary : String) (report : String)
  | httpError (status : Nat) (detail : String)
deriving DecidableEq, Repr

/-- A `/process` outcome together with the pipeline stages that actually
executed. -/
structure ProcTrace where
  result : ProcResult
  stagesRun : List String
deriving DecidableEq, Repr

/-- The body of the `try` block of `process_full`: pick the
transcription source (`if file: ... elif text: ... else raise
HTTPException(400, ...)`; an empty text string is falsy), then run
extraction, summarization, report generation and PDF rendering in
sequence. -/
def process_full_inner (env : PipeEnv) (file : Option String)
    (text : Option String) : Except HTTPExc (ProcResult × List String) :=
  let source : Except HTTPExc (String × List String) :=
    match file with
    | some f => Except.ok (env.transcribe f, ["transcription"])
    | none =>
      match text with
      | some t =>
        if t = "" then
          Except.error
            { status := 400,
              detail := "Either audio file or text must be provided" }
        else Except.ok (t, [])
      | none =>
        Except.error
          { status := 400,
            detail := "Either audio file or text must be provided" }
  match source with
  | Except.error e => Except.error e
  | Except.ok (transcription, stages) =>
    let entities := env.extractEnts transcription
    let summary := env.summarize transcription
    let report := env.genReport entities summary
    Except.ok
      (ProcResult.success transcription entities summary report,
       stages ++ ["extract_entities", "summarize", "generate_report",
                  "save_report_as_pdf"])

/-- `process_full` as observed by the caller: the blanket
`except Exception` of the route catches every exception — including the
`HTTPException(400, ...)` raised for missing input, since `HTTPException`
subclasses `Exception` — and re-raises it as
`HTTPException(500, f"Processing error: {str(e)}")`. -/
def process_full (env : PipeEnv) (file : Option String)
    (text : Option String) : ProcTrace :=
  match process_full_inner env file text with
  | Except.ok (res, stages) => { result := res, stagesRun := stages }
  | Except.error e =>
    { result := ProcResult.httpError 500 ("Processing error: " ++ strOfHTTPExc e),
      stagesRun := [] }

/-- C9 evaluated at the failing input: supplying neither an audio file
nor text does abort before any pipeline stage runs, but the explicit
input-validation `HTTPException(400, ...)` is swallowed by the route's
blanket `except Exception` and surfaces as a server-side 500, not a
client-side 400. -/
theorem process_full_no_input_is_500 (env : PipeEnv) :
    process_full env none none =
      { result := ProcResult.httpError 500
          "Processing error: 400: Either audio file or text must be provided",
        stagesRun := [] } := rfl

end MedTrans
